import Mathlib

/-!
# Verification of the flysight2csv core against its specification

This file gives a shallow embedding, in Lean 4, of the core of the
`flysight2csv` repository: the string-selection utility
(`src/flysight2csv/selection.py`), the parsed data model
(`src/flysight2csv/parsed.py`), and the single-pass stateful parser with its
timestamp-reconciliation algorithm (`src/flysight2csv/parser.py`).

Modelling conventions:
* Python `str` is modelled as `List Char` (`Str` below).
* Python `datetime` values are modelled as integers: microseconds since
  0001-01-01T00:00:00 in the proleptic Gregorian calendar (the zero point of
  Python's `date.toordinal`, shifted so that midnight of ordinal day 1 is 0).
  `timedelta` values are integer microsecond counts.  Python's
  `datetime`/`timedelta` arithmetic is exact integer arithmetic at microsecond
  resolution, which this mirrors exactly.
* Python `float` values are modelled as exact rationals.  Conversion of a
  float number of seconds to a `timedelta` rounds to the nearest microsecond
  (ties to even, as CPython does).  Concrete inputs used in theorems only use
  decimal fractions that are exactly representable, so the idealization is
  invisible to them.
* Python dicts (insertion-ordered) are modelled as association lists with
  in-place update on existing keys and append for new keys.
* Python exceptions that escape the parser (`KeyError`, `ValueError`,
  `IndexError` from tuple unpacking, and the final `UnexpectedFormatError`)
  are modelled with an explicit error type threaded through the state.
-/

namespace Flysight2

/-- Python strings are modelled as lists of characters. -/
abbrev Str := List Char

/-- `str.lower()` (sufficient for the ASCII strings handled here). -/
def pyLower (s : Str) : Str := s.map Char.toLower

/-! ## String Matcher (`selection.py`)

`StringSelection` holds the post-`__init__` state of the Python dataclass:
the value sets are already normalized and the patterns already compiled.  A
compiled regular expression is modelled as the Boolean test its `match`
method implements. -/

/-- A compiled `re.Pattern`, modelled by the prefix-match test it computes. -/
abbrev Pattern := Str → Bool

/-- `StringSelection` from `selection.py` (state after `__init__`:
`exclude_values`/`include_values` hold normalized strings, the pattern lists
hold compiled patterns). -/
structure StringSelection where
  case_insensitive : Bool := false
  exclude_values : Option (List Str) := none
  include_values : Option (List Str) := none
  exclude_patterns : Option (List Pattern) := none
  include_patterns : Option (List Pattern) := none

/-- `StringSelection.matches` from `selection.py` lines 51-63: lowercase the
column when case-insensitive, then test the four filters in order
(exclude values, include values, exclude patterns, include patterns). -/
def StringSelection.matches (sel : StringSelection) (column : Str) : Bool :=
  let column := if sel.case_insensitive then pyLower column else column
  if (match sel.exclude_values with
      | some vs => decide (column ∈ vs)
      | none => false) then
    false
  else if (match sel.include_values with
      | some vs => decide (column ∉ vs)
      | none => false) then
    false
  else if (match sel.exclude_patterns with
      | some ps => ps.any (fun p => p column)
      | none => false) then
    false
  else if (match sel.include_patterns with
      | some ps => !ps.any (fun p => p column)
      | none => false) then
    false
  else
    true

/-- The normalization `matches` applies to its argument before all tests. -/
def StringSelection.normalized (sel : StringSelection) (column : Str) : Str :=
  if sel.case_insensitive then pyLower column else column

/-- C10: exclusion takes precedence over inclusion in
`StringSelection.matches`: if the (optionally lower-cased) string is in
`exclude_values` or matches an exclude pattern then `matches` returns
`false`, whatever the include filters say; and when all four filter fields
are unset, `matches` returns `true` for every string. -/
theorem c10_matches_exclude_precedence_and_default (sel : StringSelection) (s : Str) :
    ((∃ vs, sel.exclude_values = some vs ∧ sel.normalized s ∈ vs) ∨
      (∃ ps, sel.exclude_patterns = some ps ∧ ∃ p ∈ ps, p (sel.normalized s) = true) →
      sel.matches s = false) ∧
    (sel.exclude_values = none → sel.include_values = none →
      sel.exclude_patterns = none → sel.include_patterns = none →
      sel.matches s = true) := by
  constructor
  · rintro (⟨vs, hvs, hmem⟩ | ⟨ps, hps, p, hp, hmatch⟩) <;>
      simp only [StringSelection.matches, StringSelection.normalized] at *
    · rw [hvs]
      simp [hmem]
    · rw [hps]
      by_cases hv : (match sel.exclude_values with
          | some vs => decide ((if sel.case_insensitive then pyLower s else s) ∈ vs)
          | none => false) = true
      · simp [hv]
      · simp only [Bool.not_eq_true] at hv
        simp only [hv, if_false]
        have : (ps.any fun q => q (if sel.case_insensitive then pyLower s else s)) = true :=
          List.any_eq_true.mpr ⟨p, hp, hmatch⟩
        simp [this]
  · intro h1 h2 h3 h4
    simp [StringSelection.matches, h1, h2, h3, h4]

/-- Witness for C10: a selection that both includes and excludes the string
`"abc"` rejects it, and the empty selection accepts it. -/
theorem c10_matches_witness :
    (StringSelection.mk false (some [['a','b','c']]) (some [['a','b','c']])
      none none).matches ['a','b','c'] = false ∧
    (StringSelection.mk false none none none none).matches ['a','b','c'] = true := by
  constructor
  · exact (c10_matches_exclude_precedence_and_default _ _).1
      (Or.inl ⟨[['a','b','c']], rfl, by simp [StringSelection.normalized]⟩)
  · exact (c10_matches_exclude_precedence_and_default _ _).2 rfl rfl rfl rfl

/-! ## Datetime model

Python `datetime` values are naive proleptic-Gregorian instants with
microsecond resolution; we model one as the integer number of microseconds
since 0001-01-01T00:00:00.  `timedelta` is an integer number of microseconds.
The calendar functions below reproduce `datetime.date.toordinal`. -/

/-- Proleptic Gregorian leap-year test. -/
def isLeapYear (y : Nat) : Bool := y % 4 == 0 && (y % 100 != 0 || y % 400 == 0)

/-- Cumulative days before each month in a non-leap year. -/
def daysBeforeMonthTable : List Nat := [0, 31, 59, 90, 120, 151, 181, 212, 243, 273, 304, 334]

/-- Days in the year `y` strictly before month `m`. -/
def daysBeforeMonth (y m : Nat) : Nat :=
  daysBeforeMonthTable.getD (m - 1) 0 + (if 2 < m && isLeapYear y then 1 else 0)

/-- Number of days in month `m` of year `y`. -/
def daysInMonth (y m : Nat) : Nat :=
  if m == 2 then (if isLeapYear y then 29 else 28)
  else [31, 31, 28, 31, 30, 31, 30, 31, 31, 30, 31, 30, 31].getD m 31

/-- `date(y, m, d).toordinal()`: day number with 0001-01-01 as day 1. -/
def toOrdinal (y m d : Nat) : Nat :=
  365 * (y - 1) + (y - 1) / 4 - (y - 1) / 100 + (y - 1) / 400 + daysBeforeMonth y m + d

/-- The instant `datetime(y, m, d, hh, mi, ss, us)` as microseconds since
0001-01-01T00:00:00. -/
def dtMicros (y m d hh mi ss us : Nat) : Int :=
  (((toOrdinal y m d - 1) * 86400 + hh * 3600 + mi * 60 + ss : Nat) : Int) * 1000000 + us

/-- Microseconds in one week, as used by `timedelta(weeks=...)`. -/
def microsecondsPerWeek : Int := 7 * 86400 * 1000000

/-- `round(a / b)` for integers with `b > 0`, ties to even — the rounding
CPython applies when converting a float number of seconds to the integer
microseconds of a `timedelta`. -/
def divRoundHalfEven (a b : Int) : Int :=
  let f : Int := Int.fdiv a b
  let twiceRemainder : Int := 2 * (a - f * b)
  if twiceRemainder < b then f
  else if b < twiceRemainder then f + 1
  else if f % 2 = 0 then f else f + 1

/-- `timedelta(seconds=x)` for a float `x`, in microseconds. -/
def secondsToMicros (q : ℚ) : Int := divRoundHalfEven (q.num * 1000000) q.den

/-- `Parser.GPS_START_DATE = datetime(1980, 1, 6, 0, 0, 0)`. -/
def gpsStartDate : Int := dtMicros 1980 1 6 0 0 0 0

/-- `Parser._time_data_to_offset_datetime` (parser.py lines 280-289) after the
dict lookups and `float`/`int` conversions: compute
`reference = GPS_START_DATE + timedelta(weeks=week) + timedelta(seconds=tow)`
and return `reference - timedelta(seconds=estimated_time_of_week_seconds)`.
(`.replace(tzinfo=None)` is the identity on our naive instants.) -/
def timeDataToOffsetDatetime (estimatedTimeOfWeekSeconds timeOfWeekSeconds : ℚ)
    (week : Int) : Int :=
  let total_diff : Int := week * microsecondsPerWeek + secondsToMicros timeOfWeekSeconds
  let reference_datetime : Int := gpsStartDate + total_diff
  reference_datetime - secondsToMicros estimatedTimeOfWeekSeconds

/-- C1: for every decoded `$TIME` record with relative time `rel`, time of
week `tow` and integer week `week`, the offset datum returned by
`_time_data_to_offset_datetime` satisfies
`offset_datum + relative_time = GPS_epoch(1980-01-06) + week*7days + tow`
exactly (all quantities in exact microsecond arithmetic, with float seconds
converted to `timedelta`s the way the code converts them). -/
theorem c1_offset_datum_identity (rel tow : ℚ) (week : Int) :
    timeDataToOffsetDatetime rel tow week + secondsToMicros rel
      = dtMicros 1980 1 6 0 0 0 0 + week * (7 * 86400 * 1000000) + secondsToMicros tow := by
  unfold timeDataToOffsetDatetime gpsStartDate microsecondsPerWeek
  ring

/-! ## Absolute-time strings (`Parser._convert_string_time`) -/

/-- ASCII decimal digit test. -/
def isDigitChar (c : Char) : Bool := '0' ≤ c && c ≤ '9'

/-- Numeric value of a list of decimal digits. -/
def digitsVal (ds : Str) : Nat := ds.foldl (fun a c => a * 10 + (c.toNat - 48)) 0

/-- Read exactly `n` decimal digits from the front of `s`. -/
def takeExactDigits (n : Nat) (s : Str) : Option (Nat × Str) :=
  let ds := s.take n
  if ds.length = n && ds.all isDigitChar then some (digitsVal ds, s.drop n) else none

/-- Consume one expected character. -/
def expectChar (c : Char) : Str → Option Str
  | [] => none
  | x :: xs => if x = c then some xs else none

/-- `datetime.strptime(s, '%Y-%m-%dT%H:%M:%S.%fZ')`, returning the parsed
instant in microseconds, or `none` for the `ValueError` case.  Zero-padded
fields are modelled exactly (4-digit year, 2-digit month/day/hour/minute/
second, 1-6 fraction digits zero-padded on the right); CPython additionally
accepts unpadded 1-digit month/day/hour/minute/second, which the device
format never emits.  Range checks (including day-of-month against the
calendar) mirror the `datetime` constructor's validation. -/
def strptimeYmdHMSfZ (s : Str) : Option Int := do
  let (y, s) ← takeExactDigits 4 s
  let s ← expectChar '-' s
  let (mo, s) ← takeExactDigits 2 s
  let s ← expectChar '-' s
  let (d, s) ← takeExactDigits 2 s
  let s ← expectChar 'T' s
  let (hh, s) ← takeExactDigits 2 s
  let s ← expectChar ':' s
  let (mi, s) ← takeExactDigits 2 s
  let s ← expectChar ':' s
  let (ss, s) ← takeExactDigits 2 s
  let s ← expectChar '.' s
  let frac := s.takeWhile isDigitChar
  let rest := s.dropWhile isDigitChar
  if frac.length < 1 || 6 < frac.length then none
  else
    let us := digitsVal frac * 10 ^ (6 - frac.length)
    match rest with
    | ['Z'] =>
      if 1 ≤ y && 1 ≤ mo && mo ≤ 12 && 1 ≤ d && d ≤ daysInMonth y mo
          && hh ≤ 23 && mi ≤ 59 && ss ≤ 59 then
        some (dtMicros y mo d hh mi ss us)
      else none
    | _ => none

/-- Python's substring test `pat in s` (`'' in s` is true). -/
def containsSub (pat : Str) : Str → Bool
  | [] => pat.isEmpty
  | c :: rest => pat.isPrefixOf (c :: rest) || containsSub pat rest

/-- Helper for `replaceSub`, structurally recursive on a fuel bounded by the
string length (every step consumes at least one character, so the fuel never
runs out on the real argument). -/
def replaceSubAux (pat repl : Str) : Nat → Str → Str
  | 0, s => s
  | _ + 1, [] => []
  | n + 1, c :: rest =>
    if !pat.isEmpty && pat.isPrefixOf (c :: rest) then
      repl ++ replaceSubAux pat repl n (rest.drop (pat.length - 1))
    else
      c :: replaceSubAux pat repl n rest

/-- Python's `s.replace(pat, repl)`: replace every non-overlapping occurrence
of `pat`, scanning left to right. -/
def replaceSub (pat repl s : Str) : Str := replaceSubAux pat repl s.length s

/-- The two-character pattern `'.-'`. -/
def dotDash : Str := ['.', '-']

/-- `parsed.microsecond` of an instant (valid for CE instants, which are
nonnegative in our microsecond encoding). -/
def microsecondField (d : Int) : Int := d % 1000000

/-- `Parser._convert_string_time` (parser.py lines 270-278): detect an
embedded `'.-'`, strip the sign, parse with `strptime`, and if the sign was
present subtract `timedelta(microseconds=parsed.microsecond * 2)`.  The
`ValueError` from `strptime` is modelled as `none`. -/
def convertStringTime (time_value : Str) : Option Int :=
  let negative_after_decimal_point := containsSub dotDash time_value
  let time_value :=
    if negative_after_decimal_point then replaceSub dotDash ['.'] time_value else time_value
  match strptimeYmdHMSfZ time_value with
  | none => none
  | some parsed =>
    some (if negative_after_decimal_point then parsed - microsecondField parsed * 2 else parsed)

/-- C3: on every time string containing `'.-'`, the decoder strips the sign,
parses the remaining text normally, and subtracts twice the parsed
microsecond value from the result. -/
theorem c3_fraction_sign_defect (s : Str) (h : containsSub dotDash s = true) :
    convertStringTime s
      = (strptimeYmdHMSfZ (replaceSub dotDash ['.'] s)).map
          (fun parsed => parsed - microsecondField parsed * 2) := by
  unfold convertStringTime
  rw [h]
  simp only [if_true]
  cases strptimeYmdHMSfZ (replaceSub dotDash ['.'] s) <;> simp

/-- The defective time string from the firmware bug. -/
def c3NegInput : Str := "2023-10-08T21:36:28.-001Z".data

/-- The same string with the embedded sign stripped. -/
def c3PlainInput : Str := "2023-10-08T21:36:28.001Z".data

/-- Witness for C3: `'2023-10-08T21:36:28.-001Z'` contains `'.-'`, decodes by
the sign-correction arithmetic applied to `'2023-10-08T21:36:28.001Z'`, and
the resulting instant is 2023-10-08T21:36:27.999000 (matching the value the
repository's own test suite expects for this input). -/
theorem c3_fraction_sign_defect_witness :
    containsSub dotDash c3NegInput = true ∧
    convertStringTime c3NegInput
      = (strptimeYmdHMSfZ c3PlainInput).map
          (fun parsed => parsed - microsecondField parsed * 2) ∧
    convertStringTime c3NegInput = some (dtMicros 2023 10 8 21 36 27 999000) := by
  have hs : replaceSub dotDash ['.'] c3NegInput = c3PlainInput := by decide
  have h := c3_fraction_sign_defect c3NegInput (by decide)
  rw [hs] at h
  refine ⟨by decide, h, ?_⟩
  rw [h]
  decide

/-! ## Anomaly messages

Each constructor stands for one of the parser's f-string message templates,
carrying the interpolated parts.  The templates have pairwise distinct
constant prefixes (and `!r` interpolation always starts with a quote), so
equality of constructors-with-arguments coincides with equality of the
formatted message texts that the code deduplicates on. -/

/-- The distinct anomaly message texts `Parser._error_if` can receive. -/
inductive Msg
  | reusingParser
  | firstLineMismatch
  | fieldPatternMismatch
  | unexpectedTimezone
  | unitForNonExisting (rowType : Str)
  | duplicateData
  | dataWithFields
  | unexpectedTagBeforeData (tag : Str)
  | unexpectedLineType (lineType : Str)
  | missingColumns (cols : List Str)
  | unexpectedTimeFormat (timeValue : Str)
  | noVarsFound
  | noColumnsFound
  | noUnitsFound
  | columnsUnitsMismatch
  | incompleteMetadata
  | noDataRows
  | noTimeRows
deriving DecidableEq

/-! ## Python dict model

Insertion-ordered association lists: updating an existing key keeps its
position, a new key is appended. -/

/-- `d.get(k)` / `k in d`. -/
def alistGet? {β : Type} (k : Str) : List (Str × β) → Option β
  | [] => none
  | (k', v) :: rest => if k' = k then some v else alistGet? k rest

/-- `d[k] = v`. -/
def alistSet {β : Type} (k : Str) (v : β) : List (Str × β) → List (Str × β)
  | [] => [(k, v)]
  | (k', v') :: rest => if k' = k then (k, v) :: rest else (k', v') :: alistSet k v rest

/-- `list(d)` (the keys, in insertion order). -/
def alistKeys {β : Type} (l : List (Str × β)) : List Str := l.map Prod.fst

/-- `a | b` on dicts: keys of `a` keep their positions (values overridden by
`b`), new keys of `b` are appended in `b`'s order. -/
def alistUnion {β : Type} (a b : List (Str × β)) : List (Str × β) :=
  b.foldl (fun acc kv => alistSet kv.1 kv.2 acc) a

/-- Python `==` on dicts: same key set with equal values (order-insensitive). -/
def alistEquiv {β : Type} [DecidableEq β] (a b : List (Str × β)) : Bool :=
  a.all (fun kv => alistGet? kv.1 b = some kv.2) && b.all (fun kv => alistGet? kv.1 a = some kv.2)

/-! ## Data model (`parsed.py`) -/

/-- The dynamically-typed scalar a data cell decodes to
(`Parser._convert_type` returns `int | float | str`). -/
inductive Value
  | int (n : Int)
  | float (q : ℚ)
  | str (s : Str)
deriving DecidableEq

/-- `DataRowMeta` (parsed.py lines 16-51).  `valid_offset` defaults to
`false` and, in the code under `src/`, is never assigned anywhere. -/
structure DataRowMeta where
  timestamp : Int
  sensor_name : Str
  file_path : Str
  line_number : Nat
  offset_timestamp : Option Int := none
  valid_offset : Bool := false
deriving DecidableEq

/-- `DataRow` (parsed.py lines 57-91). -/
structure DataRow where
  meta : DataRowMeta
  values : List (Str × Value)
deriving DecidableEq

/-- `CSVMeta` (parsed.py lines 94-158).  `paths` entries are modelled as
display strings (path handling is outside the core).  `is_flysight2_file`
defaults to `false` and, in the code under `src/`, is never assigned
anywhere. -/
structure CSVMeta where
  paths : List Str := []
  display_paths : List Str := []
  vars : List (Str × Str) := []
  columns : List (Str × List Str) := []
  units : List (Str × List (Str × Str)) := []
  is_flysight2_file : Bool := false
  complete_header : Bool := false
deriving DecidableEq

/-- `ParsedCSV` (parsed.py lines 161-211).  parser.py refers to
`could_not_fix_time` as `times_are_invalid` and to `format_errors` as
`warnings` (the names used by its `parsed_csv` import); the roles are
identical.  A recorded format error is kept structurally as its location
(display path and optional 1-based line number) plus the message. -/
structure ParsedCSV where
  meta : CSVMeta := {}
  rows : List DataRow := []
  could_not_fix_time : Bool := false
  format_errors : List (Str × Option Nat × Msg) := []
deriving DecidableEq

/-! ## `DataRow.get_value` (C9) -/

/-- `ROW_META_FIELDS` (parsed.py line 54): the `DataRowMeta` dataclass field
names, in declaration order. -/
def ROW_META_FIELDS : List Str :=
  ["timestamp".data, "sensor_name".data, "file_path".data, "line_number".data,
   "offset_timestamp".data, "valid_offset".data]

/-- A Python object as produced by `getattr` on `DataRowMeta` or stored in a
row's `values`. -/
inductive PyObj
  | int (n : Int)
  | float (q : ℚ)
  | str (s : Str)
  | datetime (d : Int)
  | bool (b : Bool)
  | none
deriving DecidableEq

/-- A cell value as a Python object. -/
def valueToObj : Value → PyObj
  | .int n => .int n
  | .float q => .float q
  | .str s => .str s

/-- `getattr(self.meta, column_name)` for the six dataclass fields. -/
def getattrMeta (meta : DataRowMeta) (name : Str) : PyObj :=
  if name = "timestamp".data then .datetime meta.timestamp
  else if name = "sensor_name".data then .str meta.sensor_name
  else if name = "file_path".data then .str meta.file_path
  else if name = "line_number".data then .int meta.line_number
  else if name = "offset_timestamp".data then
    (match meta.offset_timestamp with
     | some d => .datetime d
     | Option.none => .none)
  else if name = "valid_offset".data then .bool meta.valid_offset
  else .none

/-- `DataRow.get_value` (parsed.py lines 87-91): metadata field names win;
otherwise `self.values.get(column_name, default)`. -/
def DataRow.getValue (row : DataRow) (column_name : Str) (default : PyObj) : PyObj :=
  if column_name ∈ ROW_META_FIELDS then getattrMeta row.meta column_name
  else
    match alistGet? column_name row.values with
    | some v => valueToObj v
    | Option.none => default

/-- C9: `get_value` answers from the row metadata for every `DataRowMeta`
field name — `timestamp`, `sensor_name`, `file_path`, `line_number`,
`offset_timestamp`, `valid_offset` — regardless of what `row.values`
contains, so a data column with one of those names is unreachable through
`get_value`. -/
theorem c9_get_value_meta_shadows_data (row : DataRow) (name : Str) (default : PyObj)
    (h : name ∈ ROW_META_FIELDS) :
    row.getValue name default = getattrMeta row.meta name ∧
    ROW_META_FIELDS = ["timestamp".data, "sensor_name".data, "file_path".data,
      "line_number".data, "offset_timestamp".data, "valid_offset".data] := by
  refine ⟨?_, rfl⟩
  unfold DataRow.getValue
  simp [h]

/-- Witness for C9: a row whose `values` dict contains a `"timestamp"` column
still answers `get_value("timestamp")` from its metadata, so the shadowed
data cell `int 5` is unreachable. -/
theorem c9_get_value_witness :
    (DataRow.mk
        (DataRowMeta.mk 12345 "GNSS".data "f".data 7 Option.none false)
        [("timestamp".data, Value.int 5)]).getValue "timestamp".data PyObj.none
      = PyObj.datetime 12345 := by
  rw [(c9_get_value_meta_shadows_data _ _ _ (by decide)).1]
  decide

/-! ## Python exceptions escaping the core -/

/-- The exceptions the parser and merge can raise: `KeyError` (missing dict
key), `IndexError` (out-of-range list index), `ValueError` (bad unpacking or
a disallowed vars mismatch), and the parser's final
`UnexpectedFormatError`. -/
inductive PyError
  | keyError (k : Str)
  | indexError
  | valueError
  | unexpectedFormat
deriving DecidableEq

/-! ## Merge (`CSVMeta.merge_with`, `ParsedCSV.merge_with`) -/

/-- Stable insertion into a sorted list: the new element goes after all
existing elements it is `le`-greater-or-equal to. -/
def insertByLe {α : Type} (le : α → α → Bool) (x : α) : List α → List α
  | [] => [x]
  | y :: ys => if le y x then y :: insertByLe le x ys else x :: y :: ys

/-- Python's stable `sorted`, as a left-to-right insertion sort. -/
def sortByLe {α : Type} (le : α → α → Bool) (l : List α) : List α :=
  l.foldl (fun acc x => insertByLe le x acc) []

/-- `DataRowMeta.safe_timestamp_sort_key` comparison:
`(timestamp, line_number)` lexicographically. -/
def rowKeyLe (a b : DataRow) : Bool :=
  a.meta.timestamp < b.meta.timestamp ||
    (a.meta.timestamp = b.meta.timestamp && a.meta.line_number ≤ b.meta.line_number)

/-- `CSVMeta.merge_with` (parsed.py lines 141-154): reject a disallowed
`vars` mismatch (`ValueError`), otherwise concatenate the path lists, union
the dicts (right overrides left) and AND the `complete_header` flags.  The
constructor call does not pass `is_flysight2_file`, so the result gets the
default `false`.  The `isinstance` guard is discharged by typing. -/
def CSVMeta.mergeWith (self other : CSVMeta) (allow_vars_mismatch : Bool) :
    Except PyError CSVMeta :=
  if !allow_vars_mismatch && !self.vars.isEmpty && !alistEquiv self.vars other.vars then
    .error .valueError
  else
    .ok { paths := self.paths ++ other.paths
          display_paths := self.display_paths ++ other.display_paths
          vars := alistUnion self.vars other.vars
          columns := alistUnion self.columns other.columns
          units := alistUnion self.units other.units
          complete_header := self.complete_header && other.complete_header }

/-- `ParsedCSV.merge_with` (parsed.py lines 188-203): concatenate (or stably
sort) the rows, merge the metadata (which may raise), OR the
`could_not_fix_time` flags and concatenate the error lists.  Pure: it reads
its operands and allocates a new result. -/
def ParsedCSV.mergeWith (self other : ParsedCSV)
    (sort_by_timestamp allow_vars_mismatch : Bool) : Except PyError ParsedCSV :=
  let merged_rows :=
    if sort_by_timestamp then sortByLe rowKeyLe (self.rows ++ other.rows)
    else self.rows ++ other.rows
  match self.meta.mergeWith other.meta allow_vars_mismatch with
  | .error e => .error e
  | .ok meta =>
    .ok { meta := meta
          rows := merged_rows
          could_not_fix_time := self.could_not_fix_time || other.could_not_fix_time
          format_errors := self.format_errors ++ other.format_errors }

/-- `ParsedCSV()`: the empty parsed file (all dataclass defaults). -/
def emptyParsedCSV : ParsedCSV := {}

/-- A one-row `ParsedCSV` with nonempty header vars, as produced for a
typical device file; used to exhibit the failing direction of C7. -/
def c7NonEmpty : ParsedCSV :=
  { meta := { vars := [("DEVICE_ID".data, "abc".data)]
              columns := [("BARO".data, ["time".data, "pressure".data])]
              complete_header := true }
    rows := [DataRow.mk (DataRowMeta.mk 100 "BARO".data "f".data 8 (some 40) false)
      [("time".data, Value.float 1), ("pressure".data, Value.float 2)]] }

/-- Counterexample to C7 as stated: merging a `ParsedCSV` whose header
`vars` are nonempty with an empty one, with the empty file as the right
operand and default settings, does not succeed — `CSVMeta.merge_with`
raises the vars-mismatch `ValueError` because the left `vars` are nonempty
and differ from the empty right `vars`. -/
theorem c7_merge_empty_right_raises :
    c7NonEmpty.mergeWith emptyParsedCSV false false = .error .valueError := by
  rfl

/-- C7 (amended): merging the empty `ParsedCSV` as the left operand with any
`P` (default settings) succeeds and yields exactly `P`'s rows; merging `P`
with the empty file on the right succeeds iff `P.meta.vars` is empty, and
then also yields exactly `P`'s rows.  (The embedding is purely functional,
so neither operand is mutated.) -/
theorem c7_merge_neutrality_amended (P : ParsedCSV) :
    (∃ R, emptyParsedCSV.mergeWith P false false = .ok R ∧ R.rows = P.rows) ∧
    ((∃ R, P.mergeWith emptyParsedCSV false false = .ok R ∧ R.rows = P.rows) ↔
      P.meta.vars = []) := by
  constructor
  · cases hm : CSVMeta.mergeWith emptyParsedCSV.meta P.meta false with
    | error e =>
      exfalso
      unfold CSVMeta.mergeWith at hm
      simp [emptyParsedCSV] at hm
    | ok m =>
      unfold ParsedCSV.mergeWith
      rw [hm]
      exact ⟨_, rfl, by simp [emptyParsedCSV]⟩
  · constructor
    · rintro ⟨R, hR, -⟩
      by_contra hne
      have hempty : P.meta.vars.isEmpty = false := by
        cases hv : P.meta.vars with
        | nil => exact absurd hv hne
        | cons a l => simp
      have hneq : alistEquiv P.meta.vars ([] : List (Str × Str)) = false := by
        cases hv : P.meta.vars with
        | nil => exact absurd hv hne
        | cons a l => simp [alistEquiv, alistGet?]
      simp [ParsedCSV.mergeWith, CSVMeta.mergeWith, emptyParsedCSV, hempty, hneq] at hR
    · intro hv
      cases hm : CSVMeta.mergeWith P.meta emptyParsedCSV.meta false with
      | error e =>
        exfalso
        unfold CSVMeta.mergeWith at hm
        simp [emptyParsedCSV, hv] at hm
      | ok m =>
        unfold ParsedCSV.mergeWith
        rw [hm]
        exact ⟨_, rfl, by simp [emptyParsedCSV]⟩

/-- Witness for C7's amended theorem at a concrete file: both directions at
`c7NonEmpty` (whose `vars` are nonempty, so the right-empty merge has no
successful result) and the left-empty merge preserves its single row. -/
theorem c7_merge_neutrality_witness :
    (∃ R, emptyParsedCSV.mergeWith c7NonEmpty false false = .ok R ∧
      R.rows = c7NonEmpty.rows) ∧
    ¬(∃ R, c7NonEmpty.mergeWith emptyParsedCSV false false = .ok R ∧
      R.rows = c7NonEmpty.rows) := by
  refine ⟨(c7_merge_neutrality_amended c7NonEmpty).1, ?_⟩
  intro h
  have := (c7_merge_neutrality_amended c7NonEmpty).2.mp h
  simp [c7NonEmpty] at this

/-! ## Lexical helpers for the parser -/

/-- `line.split(',')` (always at least one field). -/
def splitOnComma : Str → List Str
  | [] => [[]]
  | c :: rest =>
    if c = ',' then [] :: splitOnComma rest
    else
      match splitOnComma rest with
      | [] => [[c]]
      | g :: gs => (c :: g) :: gs

/-- `Parser.LINE_TYPE_PATTERN`: full match of `^\$[A-Z]+$`. -/
def matchesLineTypePattern : Str → Bool
  | [] => false
  | c :: rest => c = '$' && !rest.isEmpty && rest.all (fun d => 'A' ≤ d && d ≤ 'Z')

/-- Python `str.isspace` characters (the ASCII ones `strip()` removes). -/
def isPySpace (c : Char) : Bool :=
  c = ' ' || c = '\t' || c = '\n' || c = '\r' || c = Char.ofNat 11 || c = Char.ofNat 12

/-- `not line.strip()`: the line is empty or all whitespace. -/
def isBlankLine (s : Str) : Bool := s.all isPySpace

/-- `line.rstrip('\r\n')`. -/
def rstripCRLF (s : Str) : Str :=
  (s.reverse.dropWhile (fun c => c = '\r' || c = '\n')).reverse

/-- `s.removeprefix('$')`. -/
def removePrefixDollar : Str → Str
  | [] => []
  | c :: rest => if c = '$' then rest else c :: rest

/-- The distinguished time column name (`TIME_COL = 'time'`). -/
def TIME_COL : Str := "time".data

/-- `Parser.EXPECTED_HEADER = '$FLYS,1'`. -/
def EXPECTED_HEADER : Str := "$FLYS,1".data

/-- `Parser.ROW_COL`. -/
def ROW_COL : Str := "$COL".data

/-- `Parser.ROW_DATA`. -/
def ROW_DATA : Str := "$DATA".data

/-- `Parser.ROW_UNIT`. -/
def ROW_UNIT : Str := "$UNIT".data

/-- `Parser.ROW_VAR`. -/
def ROW_VAR : Str := "$VAR".data

/-- `Parser.ROW_TIME`. -/
def ROW_TIME : Str := "$TIME".data

/-! ## Scalar decoding (`Parser._convert_type` and the `float`/`int` builtins)

Python's `float()`/`int()` on strings also accept surrounding whitespace,
underscores, exponents and infinities; the device format only emits plain
signed decimal numerals, which is what is modelled. -/

/-- A nonempty all-digit numeral. -/
def parseNatDigits (s : Str) : Option Nat :=
  if !s.isEmpty && s.all isDigitChar then some (digitsVal s) else none

/-- `int(s)` on a plain signed numeral (`ValueError` as `none`). -/
def parseIntStr : Str → Option Int
  | [] => none
  | c :: rest =>
    if c = '-' then (parseNatDigits rest).map (fun n => -(n : Int))
    else if c = '+' then (parseNatDigits rest).map (fun n => (n : Int))
    else (parseNatDigits (c :: rest)).map (fun n => (n : Int))

/-- Decimal numeral with optional fraction (`12`, `12.`, `.5`, `12.5`) and
the given sign, built as an exact rational `±(ip·10ᵏ + fp) / 10ᵏ`. -/
def parseUnsignedDecimal (sgn : Int) (s : Str) : Option ℚ :=
  let ip := s.takeWhile isDigitChar
  let rest := s.dropWhile isDigitChar
  match rest with
  | [] => if ip.isEmpty then none else some (mkRat (sgn * digitsVal ip) 1)
  | c :: fracPart =>
    if c = '.' then
      let fp := fracPart.takeWhile isDigitChar
      let rest2 := fracPart.dropWhile isDigitChar
      if !rest2.isEmpty then none
      else if ip.isEmpty && fp.isEmpty then none
      else
        some (mkRat (sgn * (digitsVal ip * 10 ^ fp.length + digitsVal fp)) (10 ^ fp.length))
    else none

/-- `float(s)` on a plain signed decimal (`ValueError` as `none`). -/
def parseFloatStr : Str → Option ℚ
  | [] => none
  | c :: rest =>
    if c = '-' then parseUnsignedDecimal (-1) rest
    else if c = '+' then parseUnsignedDecimal 1 rest
    else parseUnsignedDecimal 1 (c :: rest)

/-- `Parser._convert_type` (parser.py lines 239-246): try `float` when the
field contains a decimal point, else `int`; fall back to the raw string on
`ValueError`. -/
def convertType (value : Str) : Value :=
  if value.contains '.' then
    match parseFloatStr value with
    | some q => .float q
    | none => .str value
  else
    match parseIntStr value with
    | some n => .int n
    | none => .str value

/-- `float(x)` on a decoded cell. -/
def pyFloatOfValue : Value → Except PyError ℚ
  | .int n => .ok (mkRat n 1)
  | .float q => .ok q
  | .str s =>
    match parseFloatStr s with
    | some q => .ok q
    | none => .error .valueError

/-- `int(x)` on a decoded cell (truncation toward zero on floats, via
T-division of the reduced numerator by the positive denominator). -/
def pyIntOfValue : Value → Except PyError Int
  | .int n => .ok n
  | .float q => .ok (Int.tdiv q.num q.den)
  | .str s =>
    match parseIntStr s with
    | some n => .ok n
    | none => .error .valueError

/-- `timedelta(seconds=x)` on a decoded cell (a string raises `TypeError`,
folded into `valueError` here). -/
def timedeltaSecondsOfValue : Value → Except PyError Int
  | .int n => .ok (n * 1000000)
  | .float q => .ok (secondsToMicros q)
  | .str _ => .error .valueError

/-! ## Message rendering

`_error_if` hands the message text to the `ignored_errors` string matcher,
so each `Msg` renders to its Python text. -/

/-- A single-quote character. -/
def sq : Char := Char.ofNat 39

/-- Python `repr` of a short identifier-like string (no escaping needed). -/
def pyReprStr (s : Str) : Str := sq :: (s ++ [sq])

/-- Python `repr` of a list of strings. -/
def pyReprStrList (l : List Str) : Str :=
  '[' :: (List.intercalate ", ".data (l.map pyReprStr) ++ [']'])

/-- The Python text of each anomaly message (the f-string templates in
parser.py).  The `unexpectedTimeFormat` text embeds the `ValueError` text
CPython's `strptime` produces for a non-matching string; `unexpectedTimezone`
is unreachable on naive datetimes, which are the only ones the model
builds. -/
def renderMsg : Msg → Str
  | .reusingParser => "Reusing parser may result in unexpected behavior.".data
  | .firstLineMismatch =>
    "First line does not match ".data ++ pyReprStr EXPECTED_HEADER
  | .fieldPatternMismatch =>
    "First field does not match ".data ++ pyReprStr "^\\$[A-Z]+$".data
  | .unexpectedTimezone => "unexpected timezone: UTC".data
  | .unitForNonExisting t => "Unit for non-existing ".data ++ t
  | .duplicateData => "Duplicate $DATA line.".data
  | .dataWithFields => "Unexpected $DATA line with fields.".data
  | .unexpectedTagBeforeData tag =>
    "Unexpected ".data ++ pyReprStr tag ++ " before $DATA".data
  | .unexpectedLineType t => "Unexpected line type: ".data ++ pyReprStr t
  | .missingColumns cols => "Missing columns: ".data ++ pyReprStrList cols ++ [')']
  | .unexpectedTimeFormat s =>
    "Unexpected time format: time data ".data ++ pyReprStr s ++
      " does not match format ".data ++ pyReprStr "%Y-%m-%dT%H:%M:%S.%fZ".data
  | .noVarsFound => "No $VAR metadata found.".data
  | .noColumnsFound => "No columns found.".data
  | .noUnitsFound => "No units found.".data
  | .columnsUnitsMismatch => "Columns/ units mismatch.".data
  | .incompleteMetadata => "Incomplete metadata.".data
  | .noDataRows => "No data rows found.".data
  | .noTimeRows => "No $TIME rows available to fix timestamps.".data

/-! ## Parser options and state -/

/-- `ParserOptions` (parser.py lines 24-56).  `display_path_levels` is
omitted: the parser receives its display path already formatted. -/
structure ParserOptions where
  metadata_only : Bool := false
  offset_datetime : Option Int := none
  strict : Bool := true
  ignore_all_errors : Bool := false
  ignored_errors : Option StringSelection := none

/-- `StringSelection.__bool__`: truthy iff any filter field is set. -/
def StringSelection.truthy (sel : StringSelection) : Bool :=
  sel.exclude_values.isSome || sel.include_values.isSome ||
    sel.exclude_patterns.isSome || sel.include_patterns.isSome

/-- `ParserState` (parser.py lines 59-66).  `warned_messages` is a Python
set used only for membership tests; it is modelled as the list of first
occurrences. -/
structure ParserState where
  current_offset_datetime : Option Int := none
  current_line_number : Option Nat := none
  warned_messages : List Msg := []
  ignored_messages : List Msg := []

/-- The parser-owned mutable state: the in-progress `ParsedCSV` plus the
transient `ParserState`. -/
structure PState where
  parsed : ParsedCSV := {}
  state : ParserState := {}

/-- `Parser._error_if` (parser.py lines 108-134): no-op on a falsy
condition; silently absorb an already-warned message; otherwise record the
message once — into `ignored_messages` when `ignore_all_errors` is set or
the truthy `ignored_errors` selection matches the text, else as a located
entry of `format_errors`.  Returns the condition's truthiness. -/
def errorIf (ρ : ParserOptions) (dp : Str) (st : PState) (condition : Bool) (message : Msg) :
    PState × Bool :=
  if !condition then (st, false)
  else if message ∈ st.state.warned_messages then (st, true)
  else
    let st := { st with state.warned_messages := st.state.warned_messages ++ [message] }
    if ρ.ignore_all_errors then
      ({ st with state.ignored_messages := st.state.ignored_messages ++ [message] }, true)
    else if (match ρ.ignored_errors with
        | some sel => sel.truthy && sel.matches (renderMsg message)
        | none => false) then
      ({ st with state.ignored_messages := st.state.ignored_messages ++ [message] }, true)
    else
      ({ st with parsed.format_errors :=
          st.parsed.format_errors ++ [(dp, st.state.current_line_number, message)] }, true)

/-! ## The parser state machine (`Parser`) -/

/-- The `Parser.offset_datetime` property getter:
`self.options.offset_datetime or self.state.current_offset_datetime`
(a datetime object is always truthy). -/
def offsetDatetimeProp (ρ : ParserOptions) (st : PState) : Option Int :=
  match ρ.offset_datetime with
  | some v => some v
  | none => st.state.current_offset_datetime

/-- The rewrite loop of the `offset_datetime` setter (parser.py lines
100-105): each already-produced row's `timestamp` becomes
`value + timedelta(seconds=row.values['time'])` and its `offset_timestamp`
becomes `value`.  No assignment to `valid_offset` exists in parser.py, so it
is left untouched.  A row without a `'time'` cell (or with a string one)
makes the loop raise, leaving the earlier rows already rewritten. -/
def backfillRows (value : Int) : List DataRow → List DataRow × Option PyError
  | [] => ([], none)
  | row :: rest =>
    match alistGet? TIME_COL row.values with
    | none => (row :: rest, some (.keyError TIME_COL))
    | some v =>
      match timedeltaSecondsOfValue v with
      | .error e => (row :: rest, some e)
      | .ok td =>
        let row := { row with meta := { row.meta with
          timestamp := value + td, offset_timestamp := some value } }
        let (rest2, err) := backfillRows value rest
        (row :: rest2, err)

/-- The `Parser.offset_datetime` setter (parser.py lines 97-106): timezone
check (vacuous on naive datetimes), backfill of all previous rows when
`times_are_invalid` (`could_not_fix_time`) is set — clearing the flag only
if the loop completes — then record the new current offset. -/
def setOffsetDatetime (ρ : ParserOptions) (dp : Str) (st : PState) (value : Int) :
    PState × Option PyError :=
  let (st, _) := errorIf ρ dp st false .unexpectedTimezone
  if st.parsed.could_not_fix_time then
    match backfillRows value st.parsed.rows with
    | (rows2, some e) => ({ st with parsed.rows := rows2 }, some e)
    | (rows2, none) =>
      let st := { st with parsed.rows := rows2, parsed.could_not_fix_time := false }
      ({ st with state.current_offset_datetime := some value }, none)
  else
    ({ st with state.current_offset_datetime := some value }, none)

/-- The numeric branch of `_parse_time_value`: with an offset datum the
timestamp is `offset + seconds`; without one, flag the times invalid and use
`GPS_START_DATE` as a placeholder datum. -/
def parseTimeValueNumeric (ρ : ParserOptions) (st : PState) (secs : Int) :
    PState × Int × Option Int :=
  match offsetDatetimeProp ρ st with
  | some offset_datetime => (st, offset_datetime + secs, some offset_datetime)
  | none =>
    let st := { st with parsed.could_not_fix_time := true }
    (st, gpsStartDate + secs, some gpsStartDate)

/-- `Parser._parse_time_value` (parser.py lines 248-268): strings go
through `_convert_string_time` (a `ValueError` is downgraded to an anomaly
and the GPS epoch used as an obviously wrong timestamp); numbers are
relative seconds handled by the numeric branch. -/
def parseTimeValue (ρ : ParserOptions) (dp : Str) (st : PState) (time_value : Value) :
    PState × Int × Option Int :=
  match time_value with
  | .str s =>
    match convertStringTime s with
    | some timestamp => (st, timestamp, none)
    | none =>
      let (st, _) := errorIf ρ dp st true (.unexpectedTimeFormat s)
      (st, gpsStartDate, none)
  | .int n => parseTimeValueNumeric ρ st (n * 1000000)
  | .float q => parseTimeValueNumeric ρ st (secondsToMicros q)

/-- `d[k]` (`KeyError` when absent). -/
def dictGetItem {β : Type} (d : List (Str × β)) (k : Str) : Except PyError β :=
  match alistGet? k d with
  | some v => .ok v
  | none => .error (.keyError k)

/-- `Parser._time_data_to_offset_datetime` with the dict lookups and
`float`/`int` conversions of parser.py lines 282-284 made explicit. -/
def timeDataToOffsetFromData (data : List (Str × Value)) : Except PyError Int := do
  let tv ← dictGetItem data TIME_COL
  let estimated_time_of_week_seconds ← pyFloatOfValue tv
  let towv ← dictGetItem data "tow".data
  let time_of_week_seconds ← pyFloatOfValue towv
  let weekv ← dictGetItem data "week".data
  let week ← pyIntOfValue weekv
  return timeDataToOffsetDatetime estimated_time_of_week_seconds time_of_week_seconds week

/-- The cell-decoding loop of `_process_data_line`
(`for i, value in enumerate(row_fields): data[columns[i]] = convert(value)`),
raising `IndexError` when a row carries more fields than declared columns. -/
def buildRowDataAux (columns : List Str) :
    Nat → List Str → List (Str × Value) → Except PyError (List (Str × Value))
  | _, [], data => .ok data
  | i, value :: rest, data =>
    match columns.get? i with
    | none => .error .indexError
    | some column => buildRowDataAux columns (i + 1) rest (alistSet column (convertType value) data)

/-- The decoded cells of one data line. -/
def buildRowData (columns fields : List Str) : Except PyError (List (Str × Value)) :=
  buildRowDataAux columns 0 fields []

/-- Lexicographic comparison of strings by character code. -/
def strLe : Str → Str → Bool
  | [], _ => true
  | _ :: _, [] => false
  | c :: cs, d :: ds => if c = d then strLe cs ds else decide (c < d)

/-- Sorted insertion for `sortStrs`. -/
def insertStrLe (x : Str) : List Str → List Str
  | [] => [x]
  | y :: ys => if strLe x y then x :: y :: ys else y :: insertStrLe x ys

/-- `sorted` on a list of strings. -/
def sortStrs : List Str → List Str
  | [] => []
  | x :: xs => insertStrLe x (sortStrs xs)

/-- `sorted(set(columns) - set(data))`. -/
def sortedMissingColumns (columns : List Str) (data : List (Str × Value)) : List Str :=
  sortStrs ((columns.filter (fun c => (alistGet? c data).isNone)).dedup)

/-- Tail of `_process_data_line` (parser.py lines 227-237): read the time
cell (`KeyError` when the line has no `time` column), convert it, build the
`DataRowMeta` — the constructor call passes no `valid_offset`, so the
default `false` applies — and append the row. -/
def processDataLineFinish (ρ : ParserOptions) (dp : Str) (st : PState)
    (data : List (Str × Value)) (sensor_name : Str) (line_number : Nat) :
    PState × Option PyError :=
  match alistGet? TIME_COL data with
  | none => (st, some (.keyError TIME_COL))
  | some tv =>
    let (st, timestamp, offset_timestamp) := parseTimeValue ρ dp st tv
    let meta : DataRowMeta :=
      { file_path := dp
        line_number := line_number
        offset_timestamp := offset_timestamp
        sensor_name := sensor_name
        timestamp := timestamp }
    let row : DataRow := { values := data, meta := meta }
    ({ st with parsed.rows := st.parsed.rows ++ [row] }, none)

/-- The `$TIME` branch of `_process_data_line` (parser.py lines 225-226):
update the offset datum from this row before computing its own
timestamp. -/
def processDataLineTime (ρ : ParserOptions) (dp : Str) (st : PState) (line_type : Str)
    (data : List (Str × Value)) (sensor_name : Str) (line_number : Nat) :
    PState × Option PyError :=
  if line_type = ROW_TIME then
    match timeDataToOffsetFromData data with
    | .error e => (st, some e)
    | .ok od =>
      match setOffsetDatetime ρ dp st od with
      | (st2, some e) => (st2, some e)
      | (st2, none) => processDataLineFinish ρ dp st2 data sensor_name line_number
  else processDataLineFinish ρ dp st data sensor_name line_number

/-- `Parser._process_data_line` (parser.py lines 215-237).  NOTE: the
`'Unexpected line type'` anomaly can only fire when the first character is
not `'$'`, which `_process_line`'s pattern gate has already excluded; an
undeclared record type instead hits `self.parsed.meta.columns[sensor_name]`
and raises `KeyError`. -/
def processDataLine (ρ : ParserOptions) (dp : Str) (st : PState) (line_type : Str)
    (row_fields : List Str) (line_number : Nat) : PState × Option PyError :=
  match line_type with
  | [] => (st, some .indexError)
  | c0 :: restOfType =>
    let (st, _) := errorIf ρ dp st (c0 != '$') (.unexpectedLineType (c0 :: restOfType))
    let sensor_name := removePrefixDollar (c0 :: restOfType)
    match alistGet? sensor_name st.parsed.meta.columns with
    | none => (st, some (.keyError sensor_name))
    | some columns =>
      match buildRowData columns row_fields with
      | .error e => (st, some e)
      | .ok data =>
        let missing_columns : Option (List Str) :=
          if data.length = columns.length then none
          else some (sortedMissingColumns columns data)
        let (st, _) := errorIf ρ dp st
          (match missing_columns with
           | some l => !l.isEmpty
           | none => false)
          (.missingColumns (missing_columns.getD []))
        processDataLineTime ρ dp st (c0 :: restOfType) data sensor_name line_number

/-- The unit-assignment loop of `_process_header_line` (parser.py lines
202-204): `units.setdefault(row_type, {})[columns[row_type][index]] = unit`
for each unit, raising `IndexError` past the declared columns (earlier
assignments persist). -/
def assignUnits (row_type : Str) : Nat → List Str → PState → PState × Option PyError
  | _, [], st => (st, none)
  | index, u :: rest, st =>
    match alistGet? row_type st.parsed.meta.columns with
    | none => (st, some (.keyError row_type))
    | some cols =>
      match cols.get? index with
      | none => (st, some .indexError)
      | some column =>
        let current := (alistGet? row_type st.parsed.meta.units).getD []
        let newUnits := alistSet row_type (alistSet column u current) st.parsed.meta.units
        let st := { st with parsed.meta.units := newUnits }
        assignUnits row_type (index + 1) rest st

/-- `Parser._process_header_line` (parser.py lines 187-213): dispatch on the
tag.  `$VAR` requires exactly two fields (tuple-unpack `ValueError`
otherwise), `$COL`/`$UNIT` require at least a type field, `$UNIT` for an
undeclared type is an anomaly and the line is ignored, `$DATA` completes the
header, and any other tag is an anomaly. -/
def processHeaderLine (ρ : ParserOptions) (dp : Str) (st : PState) (line_type : Str)
    (row_fields : List Str) : PState × Option PyError :=
  if line_type = ROW_VAR then
    match row_fields with
    | [key, value] =>
      ({ st with parsed.meta.vars := alistSet key value st.parsed.meta.vars }, none)
    | _ => (st, some .valueError)
  else if line_type = ROW_COL then
    match row_fields with
    | [] => (st, some .valueError)
    | row_type :: fields =>
      ({ st with parsed.meta.columns := alistSet row_type fields st.parsed.meta.columns }, none)
  else if line_type = ROW_UNIT then
    match row_fields with
    | [] => (st, some .valueError)
    | row_type :: units =>
      let (st, bad) := errorIf ρ dp st (alistGet? row_type st.parsed.meta.columns).isNone
        (.unitForNonExisting row_type)
      if bad then (st, none)
      else assignUnits row_type 0 units st
  else if line_type = ROW_DATA then
    let (st, _) := errorIf ρ dp st st.parsed.meta.complete_header .duplicateData
    let (st, _) := errorIf ρ dp st (!row_fields.isEmpty) .dataWithFields
    ({ st with parsed.meta.complete_header := true }, none)
  else
    let (st, _) := errorIf ρ dp st true (.unexpectedTagBeforeData line_type)
    (st, none)

/-- `Parser._process_line` (parser.py lines 150-167): line 1 is only checked
against the magic token; later lines must pass the `$[A-Z]+` tag gate, then
go to the header or data handler according to `complete_header`. -/
def processLine (ρ : ParserOptions) (dp : Str) (st : PState) (line_index : Nat) (line : Str) :
    PState × Option PyError :=
  match splitOnComma line with
  | [] => (st, none)
  | line_type :: row_fields =>
    if line_index = 0 then
      let (st, _) := errorIf ρ dp st (decide (line ≠ EXPECTED_HEADER)) .firstLineMismatch
      (st, none)
    else
      let (st, bad) := errorIf ρ dp st (!matchesLineTypePattern line_type) .fieldPatternMismatch
      if bad then (st, none)
      else if !st.parsed.meta.complete_header then
        processHeaderLine ρ dp st line_type row_fields
      else
        processDataLine ρ dp st line_type row_fields (line_index + 1)

/-- `set(columns).symmetric_difference(units)` is nonempty. -/
def keysSymmDiffNonempty {β γ : Type} (a : List (Str × β)) (b : List (Str × γ)) : Bool :=
  a.any (fun kv => (alistGet? kv.1 b).isNone) || b.any (fun kv => (alistGet? kv.1 a).isNone)

/-- `Parser._validate_result` (parser.py lines 169-185): the end-of-input
anomalies, then — outside metadata-only mode, in strict mode, when any
format error was recorded — the final `UnexpectedFormatError`. -/
def validateResult (ρ : ParserOptions) (dp : Str) (st : PState) : PState × Option PyError :=
  let (st, _) := errorIf ρ dp st st.parsed.meta.vars.isEmpty .noVarsFound
  let (st, _) := errorIf ρ dp st st.parsed.meta.columns.isEmpty .noColumnsFound
  let (st, _) := errorIf ρ dp st st.parsed.meta.units.isEmpty .noUnitsFound
  let st :=
    if !st.parsed.meta.columns.isEmpty && !st.parsed.meta.units.isEmpty then
      (errorIf ρ dp st (keysSymmDiffNonempty st.parsed.meta.columns st.parsed.meta.units)
        .columnsUnitsMismatch).1
    else st
  let (st, _) := errorIf ρ dp st (!st.parsed.meta.complete_header) .incompleteMetadata
  if ρ.metadata_only then (st, none)
  else
    let (st, _) := errorIf ρ dp st st.parsed.rows.isEmpty .noDataRows
    let (st, _) := errorIf ρ dp st st.parsed.could_not_fix_time .noTimeRows
    if ρ.strict && !st.parsed.format_errors.isEmpty then (st, some .unexpectedFormat)
    else (st, none)

/-- The enumerated-line loop of `Parser.parse` (parser.py lines 139-146):
record `current_line_number`, skip blank lines, process the
`'\r\n'`-stripped line (a raised exception aborts the loop with the state as
mutated so far), clear `current_line_number`, honour the `metadata_only`
early break, and finally run `_validate_result`. -/
def parseLoop (ρ : ParserOptions) (dp : Str) : PState → Nat → List Str → PState × Option PyError
  | st, _, [] => validateResult ρ dp st
  | st, row_index, line :: rest =>
    let st := { st with state.current_line_number := some (row_index + 1) }
    if isBlankLine line then parseLoop ρ dp st (row_index + 1) rest
    else
      match processLine ρ dp st row_index (rstripCRLF line) with
      | (st2, some e) => (st2, some e)
      | (st2, none) =>
        let st3 := { st2 with state.current_line_number := none }
        if ρ.metadata_only && st3.parsed.meta.complete_header then validateResult ρ dp st3
        else parseLoop ρ dp st3 (row_index + 1) rest

/-- `Parser.parse` on a fresh parser with display path `dp` (parser.py
lines 81-90 and 136-148): initial state with `display_paths=[dp]`, the
reuse check, the line loop, final validation.  Returns the parser's final
state together with the exception it raised, if any. -/
def runParser (ρ : ParserOptions) (dp : Str) (lines : List Str) : PState × Option PyError :=
  let st : PState := { parsed := { meta := { display_paths := [dp] } } }
  let (st, _) := errorIf ρ dp st (!st.parsed.meta.vars.isEmpty) .reusingParser
  parseLoop ρ dp st 0 lines

/-! ## Concrete parses used by C2, C4, C5 and C6 -/

/-- A well-formed file: magic line, header (`BARO` and `TIME` record types),
`$DATA`, one relative-time `BARO` row, then a `$TIME` reference row
(`time=2.0`, `tow=100.0`, `week=2292`). -/
def sampleValidLines : List Str :=
  ["$FLYS,1".data,
   "$VAR,DEVICE_ID,abc".data,
   "$COL,BARO,time,pressure".data,
   "$UNIT,BARO,s,Pa".data,
   "$COL,TIME,time,tow,week".data,
   "$UNIT,TIME,s,s,".data,
   "$DATA".data,
   "$BARO,1.0,100000".data,
   "$TIME,2.0,100.0,2292".data]

/-- The strict-mode parse of `sampleValidLines` with default options. -/
def sampleValidRun : PState × Option PyError :=
  runParser {} "23-12-16/23-36-58/SENSOR.CSV".data sampleValidLines

/-- The offset datum established by the `$TIME` row of `sampleValidLines`:
GPS epoch + 2292 weeks + 100 s − 2 s. -/
def sampleDatum : Int := gpsStartDate + 2292 * microsecondsPerWeek + 100 * 1000000 - 2 * 1000000

/-- C2 (code bug): on `sampleValidLines`, exactly M = 1 relative-time row
precedes the first valid reference-time record.  Setting the first valid
offset datum does rewrite that row — its timestamp becomes
`offset_datum + 1s`, its `offset_datum` field is set, the parse ends with
the unresolved-time flag cleared and no anomalies — but the row's
`valid_offset` flag is NOT set: parser.py contains no assignment to
`valid_offset`, so it keeps its dataclass default `false` on every row,
contradicting both the claim and the field's own doc comment in
parsed.py. -/
theorem c2_backfill_never_sets_valid_offset :
    sampleValidRun.2 = none ∧
    sampleValidRun.1.parsed.could_not_fix_time = false ∧
    sampleValidRun.1.parsed.rows.map (fun r => r.meta.offset_timestamp)
      = [some sampleDatum, some sampleDatum] ∧
    sampleValidRun.1.parsed.rows.map (fun r => r.meta.timestamp)
      = [sampleDatum + 1000000, sampleDatum + 2000000] ∧
    sampleValidRun.1.parsed.rows.map (fun r => r.meta.valid_offset) = [false, false] := by
  exact ⟨rfl, rfl, by decide, by decide, rfl⟩

/-- A malformed first line followed by an otherwise well-formed header and
one data row (and no `$TIME` reference), used for C4 and the mismatch half
of C5. -/
def strictAnomalyLines : List Str :=
  ["bogus".data,
   "$VAR,A,B".data,
   "$COL,BARO,time".data,
   "$UNIT,BARO,s".data,
   "$DATA".data,
   "$BARO,1.0".data]

/-- The strict-mode parse of `strictAnomalyLines` with default options. -/
def strictAnomalyRun : PState × Option PyError :=
  runParser {} "23-12-16/23-36-58/SENSOR.CSV".data strictAnomalyLines

/-- Counterexample to C4 as stated: in strict mode the first unsuppressed
anomaly (the first-line mismatch, located at line 1) does NOT abort the
parse.  The row on line 6 is still produced, a second anomaly (unresolved
time, recorded during end-of-input validation) is still appended, and only
then is `UnexpectedFormatError` raised — so lines after the triggering line
are processed. -/
theorem c4_strict_abort_counterexample :
    strictAnomalyRun.2 = some .unexpectedFormat ∧
    strictAnomalyRun.1.parsed.format_errors.map (fun e => (e.2.1, e.2.2))
      = [(some 1, .firstLineMismatch), (none, .noTimeRows)] ∧
    strictAnomalyRun.1.parsed.rows.map (fun r => r.meta.line_number) = [6] := by
  exact ⟨rfl, rfl, rfl⟩

/-- C5 (code bug): `is_flysight2_file` is never assigned by parser.py, so it
keeps its dataclass default `false` even for a file whose first line is
exactly the magic token and which parses without any anomaly; on a mismatch
the "first line" anomaly is raised and the flag is (vacuously) still
`false`.  The claimed biconditional fails in the matching direction. -/
theorem c5_is_flysight2_file_stays_false :
    sampleValidLines.head? = some EXPECTED_HEADER ∧
    sampleValidRun.1.parsed.format_errors = [] ∧
    sampleValidRun.1.parsed.meta.is_flysight2_file = false ∧
    strictAnomalyLines.head? = some "bogus".data ∧
    (strictAnomalyRun.1.parsed.format_errors.map (fun e => e.2.2)).head?
      = some .firstLineMismatch ∧
    strictAnomalyRun.1.parsed.meta.is_flysight2_file = false := by
  exact ⟨rfl, rfl, rfl, rfl, rfl, rfl⟩

/-- A well-formed header that declares only `BARO`, followed by a data line
of the undeclared record type `FOO` and a further well-formed `BARO` line. -/
def undeclaredTypeLines : List Str :=
  ["$FLYS,1".data,
   "$VAR,A,B".data,
   "$COL,BARO,time".data,
   "$UNIT,BARO,s".data,
   "$DATA".data,
   "$FOO,1.0".data,
   "$BARO,2.0".data]

/-- The parse of `undeclaredTypeLines` with default options. -/
def undeclaredTypeRun : PState × Option PyError :=
  runParser {} "23-12-16/23-36-58/SENSOR.CSV".data undeclaredTypeLines

/-- C6 (code bug): a data line of an undeclared record type crashes the
parse.  `$FOO,1.0` passes the tag-pattern gate, so
`self.parsed.meta.columns['FOO']` raises an uncaught `KeyError`: no
best-effort row is appended, no `'Unexpected line type'` anomaly is
recorded (its guard tests only the first character, which the pattern gate
already ensured is `'$'`), and the following well-formed line 7 is never
processed. -/
theorem c6_undeclared_type_crashes :
    undeclaredTypeRun.2 = some (.keyError "FOO".data) ∧
    undeclaredTypeRun.1.parsed.rows = [] ∧
    undeclaredTypeRun.1.parsed.format_errors.map (fun e => e.2.2) = [] := by
  exact ⟨rfl, rfl, rfl⟩

/-! ## The anomaly-gate invariant (for C8 and C4)

All writes to `warned_messages`, `ignored_messages` and `format_errors`
go through `_error_if`, which records a message only on its first
occurrence.  `GateInv` states the resulting invariant: no duplicate warned
messages, each message routed to the ignored bucket or the diagnostics at
most as often as it was warned (hence at most once), and every diagnostic
located at the parser's display path. -/

/-- The raw message texts of the recorded format errors. -/
def feMsgs (st : PState) : List Msg := st.parsed.format_errors.map (fun e => e.2.2)

/-- The de-duplication invariant of the anomaly gate. -/
def GateInv (dp : Str) (st : PState) : Prop :=
  st.state.warned_messages.Nodup ∧
  (∀ m : Msg, st.state.ignored_messages.count m + (feMsgs st).count m
      ≤ st.state.warned_messages.count m) ∧
  (∀ x ∈ st.parsed.format_errors, x.1 = dp)

/-- A repeated message is silently absorbed: `_error_if` leaves the whole
state unchanged once the message is in `warned_messages`. -/
theorem errorIf_absorb (ρ : ParserOptions) (dp : Str) (st : PState) (c : Bool) (m : Msg)
    (h : m ∈ st.state.warned_messages) : (errorIf ρ dp st c m).1 = st := by
  cases c with
  | false => simp [errorIf]
  | true => simp [errorIf, h]

/-- `_error_if` preserves the gate invariant. -/
theorem errorIf_gate (ρ : ParserOptions) (dp : Str) (st : PState) (c : Bool) (m : Msg)
    (h : GateInv dp st) : GateInv dp (errorIf ρ dp st c m).1 := by
  obtain ⟨hnd, hcount, hloc⟩ := h
  unfold errorIf
  split
  · exact ⟨hnd, hcount, hloc⟩
  · split
    · exact ⟨hnd, hcount, hloc⟩
    · rename_i hc hm
      have hndw : (st.state.warned_messages ++ [m]).Nodup := by
        simp [List.nodup_append, hnd, List.disjoint_singleton, hm]
      split
      · refine ⟨hndw, fun m' => ?_, hloc⟩
        have hc' := hcount m'
        simp only [feMsgs] at hc' ⊢
        simp only [List.count_append]
        omega
      · split
        · refine ⟨hndw, fun m' => ?_, hloc⟩
          have hc' := hcount m'
          simp only [feMsgs] at hc' ⊢
          simp only [List.count_append]
          omega
        · refine ⟨hndw, fun m' => ?_, fun x hx => ?_⟩
          · have hc' := hcount m'
            simp only [feMsgs] at hc' ⊢
            simp only [List.map_append, List.map_cons, List.map_nil, List.count_append]
            omega
          · simp only [List.mem_append, List.mem_singleton] at hx
            rcases hx with hx | hx
            · exact hloc x hx
            · simp [hx]

/-- The offset setter preserves the gate invariant (the backfill touches
only rows and flags). -/
theorem setOffsetDatetime_gate (ρ : ParserOptions) (dp : Str) (st : PState) (v : Int)
    (h : GateInv dp st) : GateInv dp (setOffsetDatetime ρ dp st v).1 := by
  unfold setOffsetDatetime
  split
  rename_i st1 r1 heq
  have h1 : GateInv dp st1 := by
    have t := errorIf_gate ρ dp st false .unexpectedTimezone h
    rw [heq] at t
    exact t
  split
  · split
    · exact h1
    · exact h1
  · exact h1

/-- The numeric time branch preserves the gate invariant. -/
theorem parseTimeValueNumeric_gate (ρ : ParserOptions) (dp : Str) (st : PState) (secs : Int)
    (h : GateInv dp st) : GateInv dp (parseTimeValueNumeric ρ st secs).1 := by
  unfold parseTimeValueNumeric
  split
  · exact h
  · exact h

/-- `_parse_time_value` preserves the gate invariant. -/
theorem parseTimeValue_gate (ρ : ParserOptions) (dp : Str) (st : PState) (v : Value)
    (h : GateInv dp st) : GateInv dp (parseTimeValue ρ dp st v).1 := by
  cases v with
  | str s =>
    simp only [parseTimeValue]
    split
    · exact h
    · exact errorIf_gate ρ dp st true (.unexpectedTimeFormat s) h
  | int n => exact parseTimeValueNumeric_gate ρ dp st _ h
  | float q => exact parseTimeValueNumeric_gate ρ dp st _ h

/-- The row-appending tail of `_process_data_line` preserves the gate
invariant. -/
theorem processDataLineFinish_gate (ρ : ParserOptions) (dp : Str) (st : PState)
    (data : List (Str × Value)) (sensor_name : Str) (line_number : Nat)
    (h : GateInv dp st) :
    GateInv dp (processDataLineFinish ρ dp st data sensor_name line_number).1 := by
  unfold processDataLineFinish
  split
  · exact h
  · rename_i tv _htv
    split
    rename_i st1 ts ot heq
    have t := parseTimeValue_gate ρ dp st tv h
    rw [heq] at t
    exact t

/-- The `$TIME` branch of `_process_data_line` preserves the gate
invariant. -/
theorem processDataLineTime_gate (ρ : ParserOptions) (dp : Str) (st : PState)
    (line_type : Str) (data : List (Str × Value)) (sensor_name : Str) (line_number : Nat)
    (h : GateInv dp st) :
    GateInv dp (processDataLineTime ρ dp st line_type data sensor_name line_number).1 := by
  unfold processDataLineTime
  split
  · split
    · exact h
    · rename_i od _hod
      split
      · rename_i st2 e heq
        have t := setOffsetDatetime_gate ρ dp st od h
        rw [heq] at t
        exact t
      · rename_i st2 heq
        have t := setOffsetDatetime_gate ρ dp st od h
        rw [heq] at t
        exact processDataLineFinish_gate ρ dp st2 data sensor_name line_number t
  · exact processDataLineFinish_gate ρ dp st data sensor_name line_number h

/-- Transfer of the gate invariant along a destructured `_error_if` call. -/
theorem gate_of_errorIf_eq {ρ : ParserOptions} {dp : Str} {st : PState} {c : Bool} {m : Msg}
    {st' : PState} {r : Bool} (heq : errorIf ρ dp st c m = (st', r)) (h : GateInv dp st) :
    GateInv dp st' := by
  have t := errorIf_gate ρ dp st c m h
  rw [heq] at t
  exact t

/-- `_process_data_line` preserves the gate invariant. -/
theorem processDataLine_gate (ρ : ParserOptions) (dp : Str) (st : PState) (line_type : Str)
    (row_fields : List Str) (line_number : Nat) (h : GateInv dp st) :
    GateInv dp (processDataLine ρ dp st line_type row_fields line_number).1 := by
  unfold processDataLine
  split
  · exact h
  · rename_i c0 restOfType
    split
    rename_i st1 r1 heq
    have h1 : GateInv dp st1 := gate_of_errorIf_eq heq h
    dsimp only
    split
    · exact h1
    · rename_i columns _hcols
      split
      · exact h1
      · rename_i data _hdata
        repeat' split
        all_goals
          exact processDataLineTime_gate ρ dp _ _ data _ line_number
            (errorIf_gate ρ dp st1 _ _ h1)

/-- The unit-assignment loop preserves the gate invariant (it only touches
the `units` metadata). -/
theorem assignUnits_gate (dp row_type : Str) (units : List Str) (index : Nat) (st : PState)
    (h : GateInv dp st) : GateInv dp (assignUnits row_type index units st).1 := by
  induction units generalizing index st with
  | nil => exact h
  | cons u rest ih =>
    unfold assignUnits
    split
    · exact h
    · split
      · exact h
      · exact ih _ _ h

/-- `_process_header_line` preserves the gate invariant. -/
theorem processHeaderLine_gate (ρ : ParserOptions) (dp : Str) (st : PState) (line_type : Str)
    (row_fields : List Str) (h : GateInv dp st) :
    GateInv dp (processHeaderLine ρ dp st line_type row_fields).1 := by
  unfold processHeaderLine
  split
  · split
    · exact h
    · exact h
  · split
    · split
      · exact h
      · exact h
    · split
      · split
        · exact h
        · rename_i row_type units
          split
          rename_i st1 bad heq
          have h1 : GateInv dp st1 := gate_of_errorIf_eq heq h
          split
          · exact h1
          · exact assignUnits_gate dp row_type units 0 st1 h1
      · split
        · split
          rename_i st1 r1 heq
          have h1 : GateInv dp st1 := gate_of_errorIf_eq heq h
          split
          rename_i st2 r2 heq2
          have h2 : GateInv dp st2 := gate_of_errorIf_eq heq2 h1
          exact h2
        · split
          rename_i st1 r1 heq
          have h1 : GateInv dp st1 := gate_of_errorIf_eq heq h
          exact h1

/-- `_process_line` preserves the gate invariant. -/
theorem processLine_gate (ρ : ParserOptions) (dp : Str) (st : PState) (line_index : Nat)
    (line : Str) (h : GateInv dp st) :
    GateInv dp (processLine ρ dp st line_index line).1 := by
  unfold processLine
  split
  · exact h
  · rename_i line_type row_fields _heqSplit
    split
    · split
      rename_i st1 r1 heq
      exact gate_of_errorIf_eq heq h
    · split
      rename_i st1 bad heq
      have h1 : GateInv dp st1 := gate_of_errorIf_eq heq h
      split
      · exact h1
      · split
        · exact processHeaderLine_gate ρ dp st1 line_type row_fields h1
        · exact processDataLine_gate ρ dp st1 line_type row_fields (line_index + 1) h1

/-- `_validate_result` preserves the gate invariant. -/
theorem validateResult_gate (ρ : ParserOptions) (dp : Str) (st : PState) (h : GateInv dp st) :
    GateInv dp (validateResult ρ dp st).1 := by
  unfold validateResult
  dsimp only
  repeat' split
  all_goals repeat first | exact h | apply errorIf_gate

/-- Transfer of the gate invariant along a destructured `_process_line`
call. -/
theorem gate_of_processLine_eq {ρ : ParserOptions} {dp : Str} {st : PState} {i : Nat}
    {line : Str} {st' : PState} {r : Option PyError}
    (heq : processLine ρ dp st i line = (st', r)) (h : GateInv dp st) : GateInv dp st' := by
  have t := processLine_gate ρ dp st i line h
  rw [heq] at t
  exact t

/-- The line loop of `parse` preserves the gate invariant. -/
theorem parseLoop_gate (ρ : ParserOptions) (dp : Str) (lines : List Str) (st : PState)
    (row_index : Nat) (h : GateInv dp st) :
    GateInv dp (parseLoop ρ dp st row_index lines).1 := by
  induction lines generalizing st row_index with
  | nil => exact validateResult_gate ρ dp st h
  | cons line rest ih =>
    unfold parseLoop
    dsimp only
    split
    · exact ih _ _ h
    · split
      · rename_i st2 e heq
        exact gate_of_processLine_eq heq h
      · rename_i st2 heq
        have h2 : GateInv dp st2 := gate_of_processLine_eq heq h
        split
        · exact validateResult_gate ρ dp _ h2
        · exact ih _ _ h2

/-- The final state of any parse satisfies the gate invariant. -/
theorem runParser_gate (ρ : ParserOptions) (dp : Str) (lines : List Str) :
    GateInv dp (runParser ρ dp lines).1 := by
  unfold runParser
  have h0 : GateInv dp { parsed := { meta := { display_paths := [dp] } } } := by
    refine ⟨List.nodup_nil, fun m => ?_, fun x hx => ?_⟩
    · simp [feMsgs]
    · simp [PState.mk] at hx
  dsimp only
  exact parseLoop_gate ρ dp lines _ 0 (errorIf_gate _ _ _ _ _ h0)

/-- C8: anomaly de-duplication.  During any parse, each anomaly message
text is routed to the ignored bucket or appended to the diagnostics at most
once in total, however often its triggering condition recurs; and a call of
`_error_if` with an already-warned message leaves the parser state
completely unchanged (the later occurrence is silently absorbed into
whatever was decided at the first one). -/
theorem c8_anomaly_dedup (ρ : ParserOptions) (dp : Str) (lines : List Str) :
    (∀ m : Msg,
      (runParser ρ dp lines).1.state.ignored_messages.count m
        + (feMsgs (runParser ρ dp lines).1).count m ≤ 1) ∧
    (∀ (st : PState) (c : Bool) (m : Msg), m ∈ st.state.warned_messages →
      (errorIf ρ dp st c m).1 = st) := by
  constructor
  · intro m
    obtain ⟨hnd, hcount, -⟩ := runParser_gate ρ dp lines
    have h1 := hcount m
    have h2 : (runParser ρ dp lines).1.state.warned_messages.count m ≤ 1 :=
      List.nodup_iff_count_le_one.mp hnd m
    omega
  · intro st c m hm
    exact errorIf_absorb ρ dp st c m hm

/-- Witness for C8: a second occurrence of an already-warned message is a
no-op on a concrete state, and the bounded counts hold on a concrete
parse. -/
theorem c8_anomaly_dedup_witness :
    (errorIf {} "f".data
        { parsed := {}, state := { warned_messages := [Msg.noDataRows] } }
        true Msg.noDataRows).1
      = { parsed := {}, state := { warned_messages := [Msg.noDataRows] } } ∧
    (runParser {} "f".data []).1.state.ignored_messages.count Msg.noVarsFound
        + (feMsgs (runParser {} "f".data []).1).count Msg.noVarsFound ≤ 1 := by
  constructor
  · exact (c8_anomaly_dedup {} "f".data []).2 _ true Msg.noDataRows (by decide)
  · exact (c8_anomaly_dedup {} "f".data []).1 Msg.noVarsFound

/-! ## Strict-mode analysis (C4)

`options.strict` is read in exactly one place — the final raise of
`_validate_result` — so a strict parse mutates state exactly like a
non-strict one and differs only in the end-of-parse exception. -/

/-- `_error_if` does not read `strict`. -/
theorem errorIf_strict (ρ : ParserOptions) (b : Bool) (dp : Str) (st : PState) (c : Bool)
    (m : Msg) : errorIf { ρ with strict := b } dp st c m = errorIf ρ dp st c m := rfl

/-- `_process_line` (and everything below it) does not read `strict`. -/
theorem processLine_strict (ρ : ParserOptions) (b : Bool) (dp : Str) (st : PState) (i : Nat)
    (line : Str) :
    processLine { ρ with strict := b } dp st i line = processLine ρ dp st i line := rfl

/-- The state component of `_validate_result` does not depend on
`strict`. -/
theorem validateResult_fst_strict (ρ : ParserOptions) (b : Bool) (dp : Str) (st : PState) :
    (validateResult { ρ with strict := b } dp st).1 = (validateResult ρ dp st).1 := by
  unfold validateResult
  dsimp only
  simp only [errorIf_strict]
  repeat' split
  all_goals rfl

/-- The exception of `_validate_result`: `UnexpectedFormatError` exactly
when strict mode is on, metadata-only mode is off, and a format error has
been recorded in the resulting state. -/
theorem validateResult_snd (ρ : ParserOptions) (dp : Str) (st : PState) (st' : PState)
    (e : Option PyError) (heq : validateResult ρ dp st = (st', e)) :
    e = if ρ.strict && !ρ.metadata_only && !st'.parsed.format_errors.isEmpty
        then some .unexpectedFormat else none := by
  unfold validateResult at heq
  dsimp only at heq
  cases hmd : ρ.metadata_only with
  | true =>
    simp only [hmd] at heq
    rw [Prod.ext_iff] at heq
    obtain ⟨h1, h2⟩ := heq
    subst h1
    subst h2
    simp
  | false =>
    simp only [hmd, Bool.false_eq_true, if_false] at heq
    split at heq
    all_goals split at heq
    all_goals
      rw [Prod.ext_iff] at heq
      obtain ⟨h1, h2⟩ := heq
      subst h1
      subst h2
      simp only [Bool.not_false, Bool.and_true, Bool.true_and] at *
    all_goals rename_i hcond
    all_goals first | rw [if_pos hcond] | rw [if_neg hcond]

/-- `_validate_result` under strict vs non-strict mode: same state, and the
strict run raises exactly when diagnostics are nonempty (outside
metadata-only mode), while the non-strict run never raises. -/
theorem validateResult_triple (ρ : ParserOptions) (dp : Str) (st : PState) :
    (validateResult { ρ with strict := true } dp st).1
      = (validateResult { ρ with strict := false } dp st).1 ∧
    ((validateResult { ρ with strict := false } dp st).2 = none →
      (validateResult { ρ with strict := true } dp st).2
        = (if ρ.metadata_only
              || (validateResult { ρ with strict := true } dp st).1.parsed.format_errors.isEmpty
           then none else some PyError.unexpectedFormat)) ∧
    ((validateResult { ρ with strict := false } dp st).2 ≠ none →
      (validateResult { ρ with strict := true } dp st).2
        = (validateResult { ρ with strict := false } dp st).2) := by
  have hT := validateResult_snd { ρ with strict := true } dp st
    (validateResult { ρ with strict := true } dp st).1
    (validateResult { ρ with strict := true } dp st).2 rfl
  have hF := validateResult_snd { ρ with strict := false } dp st
    (validateResult { ρ with strict := false } dp st).1
    (validateResult { ρ with strict := false } dp st).2 rfl
  refine ⟨?_, ?_, ?_⟩
  · rw [validateResult_fst_strict ρ true dp st, validateResult_fst_strict ρ false dp st]
  · intro h0
    rw [hT]
    cases hmd : ρ.metadata_only <;>
      cases hfe : (validateResult { ρ with strict := true } dp st).1.parsed.format_errors.isEmpty <;>
      simp [hmd, hfe]
  · intro hne
    rw [hF] at hne
    simp at hne

/-- The parse loop under strict vs non-strict mode: identical states; the
strict run's exception is the end-of-parse `UnexpectedFormatError` exactly
when the non-strict run finished cleanly with nonempty diagnostics (outside
metadata-only mode); crashes are identical in both modes. -/
theorem parseLoop_strict (ρ : ParserOptions) (dp : Str) (lines : List Str) :
    ∀ (st : PState) (i : Nat),
      (parseLoop { ρ with strict := true } dp st i lines).1
        = (parseLoop { ρ with strict := false } dp st i lines).1 ∧
      ((parseLoop { ρ with strict := false } dp st i lines).2 = none →
        (parseLoop { ρ with strict := true } dp st i lines).2
          = (if ρ.metadata_only
                || (parseLoop { ρ with strict := true } dp st i lines).1.parsed.format_errors.isEmpty
             then none else some PyError.unexpectedFormat)) ∧
      ((parseLoop { ρ with strict := false } dp st i lines).2 ≠ none →
        (parseLoop { ρ with strict := true } dp st i lines).2
          = (parseLoop { ρ with strict := false } dp st i lines).2) := by
  induction lines with
  | nil => exact fun st i => validateResult_triple ρ dp st
  | cons line rest ih =>
    intro st i
    simp only [parseLoop]
    simp only [processLine_strict]
    split
    · exact ih _ _
    · split
      · rename_i st2 e heq
        exact ⟨rfl, by simp, fun _ => rfl⟩
      · rename_i st2 heq
        split
        · exact validateResult_triple ρ dp _
        · exact ih _ _

/-- C4 (amended): in strict mode the first unsuppressed anomaly does NOT
abort the parse.  A strict parse performs exactly the same work as the
non-strict parse of the same input (identical final state, so every line
the non-strict run processes is processed), every recorded diagnostic is
located at the parser's display path (with the line number stored
alongside), and the `UnexpectedFormatError` is raised only by end-of-input
validation: when the non-strict run finishes without an exception, the
strict run raises it iff some diagnostic was recorded (outside
metadata-only mode); crashes are identical in both modes. -/
theorem c4_strict_raises_at_end_amended (ρ : ParserOptions) (dp : Str) (lines : List Str) :
    (runParser { ρ with strict := true } dp lines).1
      = (runParser { ρ with strict := false } dp lines).1 ∧
    (∀ x ∈ (runParser { ρ with strict := true } dp lines).1.parsed.format_errors, x.1 = dp) ∧
    ((runParser { ρ with strict := false } dp lines).2 = none →
      (runParser { ρ with strict := true } dp lines).2
        = (if ρ.metadata_only
              || (runParser { ρ with strict := true } dp lines).1.parsed.format_errors.isEmpty
           then none else some PyError.unexpectedFormat)) ∧
    ((runParser { ρ with strict := false } dp lines).2 ≠ none →
      (runParser { ρ with strict := true } dp lines).2
        = (runParser { ρ with strict := false } dp lines).2) := by
  obtain ⟨h1, h2, h3⟩ :=
    parseLoop_strict ρ dp lines { parsed := { meta := { display_paths := [dp] } } } 0
  exact ⟨h1, (runParser_gate { ρ with strict := true } dp lines).2.2, h2, h3⟩

/-- Witness for C4's amended theorem: on the concrete malformed input, the
non-strict run returns without an exception and the strict run ends with
`UnexpectedFormatError`, as the theorem dictates. -/
theorem c4_strict_raises_at_end_amended_witness :
    (runParser { ({} : ParserOptions) with strict := false }
        "23-12-16/23-36-58/SENSOR.CSV".data strictAnomalyLines).2 = none ∧
    (runParser { ({} : ParserOptions) with strict := true }
        "23-12-16/23-36-58/SENSOR.CSV".data strictAnomalyLines).2
      = some PyError.unexpectedFormat := by
  refine ⟨rfl, ?_⟩
  have h := (c4_strict_raises_at_end_amended {} "23-12-16/23-36-58/SENSOR.CSV".data
    strictAnomalyLines).2.2.1 rfl
  rw [h]
  rfl

end Flysight2
